import Mathlib

/-
Shallow embedding of the assessment (test) lifecycle and scoring engine of
the archetype-be repository.

The embedded code:
  * src/routes/tests.js
      - POST /:id/start                     (attempt admission, raw SQL)
      - POST /attempts/:attemptId/submit    (generic submission path)
      - POST /attempts/:attemptId/grade     (manual grading)
      - GET  /:id                           (read test details, option projection)
  * src/unnamed/part_001 (raw-SQL candidate test routes) and
    src/unnamed/part_000 (Sequelize candidate test routes, same logic)
      - POST /:testId/start                 (attempt admission)
      - POST /:testId/submit                (candidate submission path)
  * src/routes/skills.js
      - POST /calculate/:userId             (skill aggregation)

Numbers are modelled by ℚ (JS numbers at the precision the routes use);
JS Math.round and Number.toFixed(2) are modelled exactly on ℚ.
Database state is modelled by lookup functions; each route handler becomes a
pure function from the rows it reads to the rows it writes, with the
transactional rollback paths modelled by Except errors (an error result means
the transaction was rolled back and nothing was persisted).
-/

namespace Archetype

/-- Rounding of JS `Math.round x`: round half toward positive infinity. -/
def jsRound (x : ℚ) : ℤ := ⌊x + 1 / 2⌋

/-- Rounding of JS `x.toFixed(2)` (re-parsed to a number): round to the
nearest hundredth, halves toward positive infinity. -/
def toFixed2 (x : ℚ) : ℚ := ((jsRound (x * 100) : ℤ) : ℚ) / 100

/-- Question and test type enum (`test_type`/`question_type` columns,
validated against multiple_choice / written / coding). -/
inductive QType where
  | multiple_choice
  | written
  | coding
deriving DecidableEq

/-- Attempt lifecycle status (`test_attempts.status`). -/
inductive AttemptStatus where
  | in_progress
  | submitted
  | graded
deriving DecidableEq

/-- A row of `question_options` (src/unnamed/part_012 model). -/
structure QuestionOption where
  id : Nat
  question_id : Nat
  option_text : String
  is_correct : Bool
  order_index : Nat
deriving DecidableEq

/-- A row of `test_questions` (src/unnamed/part_014 model). -/
structure TestQuestion where
  id : Nat
  test_id : Nat
  question_type : QType
  points : Nat
  order_index : Nat
deriving DecidableEq

/-- A row of `tests` (src/models/Test.js): the columns the embedded routes
read.  `max_attempts` is nullable in the schema. -/
structure Test where
  id : Nat
  test_type : QType
  passing_score : Nat
  max_attempts : Option Nat
deriving DecidableEq

/-- A row of `test_attempts`.  Timestamps are abstracted to the one bit the
routes branch on (`graded_at` set or NULL). -/
structure TestAttempt where
  id : Nat
  test_id : Nat
  user_id : Nat
  status : AttemptStatus
  attempt_number : Nat
  score : Option ℚ
  graded_by : Option Nat
  graded_at_set : Bool
deriving DecidableEq

/-- One element of the `answers` array in a submit request body. -/
structure SubmittedAnswer where
  question_id : Nat
  answer_text : Option String
  selected_option_id : Option Nat
deriving DecidableEq

/-- A row of `test_answers` as inserted by the submit handlers. -/
structure TestAnswerRow where
  attempt_id : Nat
  question_id : Nat
  answer_text : Option String
  selected_option_id : Option Nat
  points_awarded : Option ℚ
  feedback : Option String
deriving DecidableEq

/-- The rows of the persistence store that the handlers look up by primary
key (`SELECT ... WHERE id = $1`). -/
structure DB where
  questions : Nat → Option TestQuestion
  options : Nat → Option QuestionOption

/-- Rollback reasons of the embedded handlers: a 400 "wrong lifecycle state"
response, or the crash of the generic handlers when a referenced question
row does not exist (reading `rows[0].points` of an empty result throws and
the transaction is rolled back with a 500). -/
inductive OpError where
  | invalidState
  | questionMissing
deriving DecidableEq

/-- Auto-grading of a single submitted answer, shared verbatim by the three
submit handlers (src/routes/tests.js lines 227-242, src/unnamed/part_001
lines 175-193, src/unnamed/part_000 lines 188-210): when the question is
multiple_choice and an option was selected, award full points if the selected
option row exists and `is_correct`, else award 0; in every other case the
handler leaves `pointsAwarded = null`. -/
def autoGradePoints (db : DB) (q : TestQuestion) (a : SubmittedAnswer) : Option ℚ :=
  match a.selected_option_id with
  | some oid =>
    if q.question_type = QType.multiple_choice then
      match db.options oid with
      | some opt => if opt.is_correct then some (q.points : ℚ) else some 0
      | none => some 0
    else none
  | none => none

/-- The `test_answers` row inserted for one submitted answer. -/
def mkAnswerRow (attemptId : Nat) (a : SubmittedAnswer) (pa : Option ℚ) : TestAnswerRow :=
  { attempt_id := attemptId
    question_id := a.question_id
    answer_text := a.answer_text
    selected_option_id := a.selected_option_id
    points_awarded := pa
    feedback := none }

/-- Accumulator of the candidate submission loop (src/unnamed/part_001
lines 158-201): inserted rows, running total of question points, running
earned points, and the `autoGradable` flag. -/
structure SubmitAcc where
  rows : List TestAnswerRow
  totalPoints : ℚ
  earnedPoints : ℚ
  autoGradable : Bool
deriving DecidableEq

/-- The candidate submission answer loop (src/unnamed/part_001 lines
163-201; identical in src/unnamed/part_000 lines 179-222).  A missing
question row is skipped (`continue`); otherwise the question's points are
added to the total, the answer is auto-graded, earned points accumulate, and
`autoGradable` is cleared exactly when the answer was not an MCQ selection. -/
def candidateProcess (db : DB) (attemptId : Nat) : List SubmittedAnswer → SubmitAcc
  | [] => { rows := [], totalPoints := 0, earnedPoints := 0, autoGradable := true }
  | a :: rest =>
    match db.questions a.question_id with
    | none => candidateProcess db attemptId rest
    | some q =>
      let pa := autoGradePoints db q a
      let acc := candidateProcess db attemptId rest
      { rows := mkAnswerRow attemptId a pa :: acc.rows
        totalPoints := (q.points : ℚ) + acc.totalPoints
        earnedPoints := pa.getD 0 + acc.earnedPoints
        autoGradable := pa.isSome && acc.autoGradable }

/-- Feedback template chosen by the candidate submission handler
(src/unnamed/part_001 lines 211-219); the interpolated strings themselves
are elided. -/
inductive FeedbackKind where
  | passedTemplate
  | failedTemplate
  | pendingReview
deriving DecidableEq

/-- Result of the candidate submission path: inserted answer rows, the
updated attempt row, the feedback template, and the `passed` flag of the
JSON response. -/
structure CandidateOutcome where
  answers : List TestAnswerRow
  attempt : TestAttempt
  feedbackKind : FeedbackKind
  passed : Bool
deriving DecidableEq

/-- The candidate submission handler, POST /:testId/submit
(src/unnamed/part_001 lines 120-283 and its Sequelize twin
src/unnamed/part_000 lines 136-304), starting after the attempt row has been
fetched for the calling user.  A non-in_progress attempt is rejected
("Test already submitted") with the transaction rolled back.  Otherwise all
answers are processed; if every answer was an auto-gradable MCQ selection
and the total points are positive, the score is `Math.round(earned/total*100)`
and the attempt becomes graded with `graded_at` set, else the attempt becomes
submitted with a null score. -/
def candidateSubmit (db : DB) (test : Test) (attempt : TestAttempt)
    (answers : List SubmittedAnswer) : Except OpError CandidateOutcome :=
  if attempt.status ≠ AttemptStatus.in_progress then Except.error OpError.invalidState
  else
    let passingScore : ℚ := if test.passing_score = 0 then 70 else (test.passing_score : ℚ)
    let acc := candidateProcess db attempt.id answers
    if acc.autoGradable ∧ 0 < acc.totalPoints then
      let score : ℚ := (jsRound (acc.earnedPoints / acc.totalPoints * 100) : ℚ)
      Except.ok
        { answers := acc.rows
          attempt := { attempt with
            status := AttemptStatus.graded
            score := some score
            graded_at_set := true }
          feedbackKind :=
            if passingScore ≤ score then FeedbackKind.passedTemplate
            else FeedbackKind.failedTemplate
          passed := if passingScore ≤ score then true else false }
    else
      Except.ok
        { answers := acc.rows
          attempt := { attempt with
            status := AttemptStatus.submitted
            score := none
            graded_at_set := false }
          feedbackKind := FeedbackKind.pendingReview
          passed := false }

/-- The generic submission answer loop (src/routes/tests.js lines 218-249).
Unlike the candidate loop there is no `autoGradable` flag and a missing
question row crashes the handler (`questionResult.rows[0].points` throws),
rolling the transaction back. -/
def genericProcess (db : DB) (attemptId : Nat) :
    List SubmittedAnswer → Except OpError (List TestAnswerRow × ℚ × ℚ)
  | [] => Except.ok ([], 0, 0)
  | a :: rest =>
    match db.questions a.question_id with
    | none => Except.error OpError.questionMissing
    | some q =>
      let pa := autoGradePoints db q a
      match genericProcess db attemptId rest with
      | Except.error e => Except.error e
      | Except.ok (rows, total, earned) =>
        Except.ok (mkAnswerRow attemptId a pa :: rows, (q.points : ℚ) + total, pa.getD 0 + earned)

/-- Result of the generic submission path: inserted rows and updated attempt. -/
structure SubmitOutcome where
  answers : List TestAnswerRow
  attempt : TestAttempt
deriving DecidableEq

/-- The generic submission handler, POST /attempts/:attemptId/submit
(src/routes/tests.js lines 180-279), starting after the attempt row has been
fetched for the calling user.  A non-in_progress attempt is rejected.
Otherwise the answers are inserted and the attempt is updated with
`status = 'submitted'` unconditionally; when the test's type is
multiple_choice the score is `(earned/total*100).toFixed(2)` and `graded_at`
is set, else score stays NULL (lines 251-262). -/
def genericSubmit (db : DB) (test : Test) (attempt : TestAttempt)
    (answers : List SubmittedAnswer) : Except OpError SubmitOutcome :=
  if attempt.status ≠ AttemptStatus.in_progress then Except.error OpError.invalidState
  else
    match genericProcess db attempt.id answers with
    | Except.error e => Except.error e
    | Except.ok (rows, totalPoints, earnedPoints) =>
      Except.ok
        { answers := rows
          attempt := { attempt with
            status := AttemptStatus.submitted
            score :=
              if test.test_type = QType.multiple_choice then
                some (toFixed2 (earnedPoints / totalPoints * 100))
              else none
            graded_at_set :=
              if test.test_type = QType.multiple_choice then true else false } }

/-- The effective max-attempts ceiling `test.max_attempts || 3` used by all
three start handlers (src/routes/tests.js line 148, src/unnamed/part_001
line 68, src/unnamed/part_000 line 82): the JS `||` fallback replaces both a
NULL and an explicit 0 by 3. -/
def effectiveMaxAttempts (test : Test) : Nat :=
  match test.max_attempts with
  | none => 3
  | some m => if m = 0 then 3 else m

/-- The start-attempt handler (src/routes/tests.js lines 138-177,
src/unnamed/part_001 lines 47-117, src/unnamed/part_000 lines 63-133),
starting after the test row has been found: if the user's existing attempt
count has reached the ceiling the request is rejected ("Maximum attempts
reached"), else an attempt row with status in_progress and
`attempt_number = count + 1` is inserted. -/
def startAttempt (test : Test) (userId : Nat) (existingCount : Nat) (newId : Nat) :
    Except OpError TestAttempt :=
  if effectiveMaxAttempts test ≤ existingCount then Except.error OpError.invalidState
  else
    Except.ok
      { id := newId
        test_id := test.id
        user_id := userId
        status := AttemptStatus.in_progress
        attempt_number := existingCount + 1
        score := none
        graded_by := none
        graded_at_set := false }

/-- One element of the `answers` array of a manual-grading request. -/
structure GradeEntry where
  question_id : Nat
  points_awarded : Option ℚ
  feedback : Option String
deriving DecidableEq

/-- The per-answer UPDATE issued by the manual-grading handler. -/
structure GradeUpdate where
  question_id : Nat
  points_awarded : Option ℚ
  feedback : Option String
deriving DecidableEq

/-- Result of the manual-grading handler: answer updates, the updated
attempt row, and the overall feedback stored on the attempt. -/
structure GradeOutcome where
  updates : List GradeUpdate
  attempt : TestAttempt
  overallFeedback : Option String
deriving DecidableEq

/-- The manual-grading answer loop (src/routes/tests.js lines 313-332): the
question's points accumulate into the denominator, the grader-supplied
`points_awarded || 0` accumulates into the numerator with no clamping
against the question's maximum, and each matching answer row is updated.  A
missing question row crashes the handler (rollback). -/
def gradeProcess (db : DB) : List GradeEntry → Except OpError (List GradeUpdate × ℚ × ℚ)
  | [] => Except.ok ([], 0, 0)
  | e :: rest =>
    match db.questions e.question_id with
    | none => Except.error OpError.questionMissing
    | some q =>
      match gradeProcess db rest with
      | Except.error err => Except.error err
      | Except.ok (us, total, earned) =>
        Except.ok
          ({ question_id := e.question_id, points_awarded := e.points_awarded,
             feedback := e.feedback } :: us,
           (q.points : ℚ) + total,
           e.points_awarded.getD 0 + earned)

/-- The manual-grading handler, POST /attempts/:attemptId/grade
(src/routes/tests.js lines 282-362), starting after the attempt row has been
fetched: an attempt not in status submitted is rejected ("Test not in
submitted state"); otherwise the answers are updated and the attempt gets
`status = 'graded'`, `score = (earned/total*100).toFixed(2)`, `graded_at`
set, `graded_by` the grader, and the overall feedback. -/
def gradeAttempt (db : DB) (attempt : TestAttempt) (graderId : Nat)
    (entries : List GradeEntry) (overallFeedback : Option String) :
    Except OpError GradeOutcome :=
  if attempt.status ≠ AttemptStatus.submitted then Except.error OpError.invalidState
  else
    match gradeProcess db entries with
    | Except.error e => Except.error e
    | Except.ok (us, totalPoints, earnedPoints) =>
      Except.ok
        { updates := us
          attempt := { attempt with
            status := AttemptStatus.graded
            score := some (toFixed2 (earnedPoints / totalPoints * 100))
            graded_by := some graderId
            graded_at_set := true }
          overallFeedback := overallFeedback }

/-- The option record returned to callers by GET /:id (src/routes/tests.js
lines 110-114, `SELECT id, option_text, order_index FROM question_options`)
and by the start handlers (src/unnamed/part_001 lines 95-101,
src/unnamed/part_000 lines 112-117, same column list). -/
structure ReadOption where
  id : Nat
  option_text : String
  order_index : Nat
deriving DecidableEq

/-- The projection the read/start handlers apply to a `question_options`
row before returning it: only id, option_text and order_index are selected. -/
def readTestOption (o : QuestionOption) : ReadOption :=
  { id := o.id, option_text := o.option_text, order_index := o.order_index }

/-- The hardcoded supervisor rating placeholder of the skill calculation
(src/routes/skills.js line 156). -/
def supervisorRating : ℚ := 35 / 10

/-- Per-skill test average of the skill calculation (src/routes/skills.js
lines 152-154): the mean, over the skill's contributing completed courses,
of each course's average graded test score, taking 0 for a course with no
graded attempts. -/
def skillTestAverage (testAvgMap : Nat → Option ℚ) (courses : List Nat) : ℚ :=
  ((courses.map (fun cid => (testAvgMap cid).getD 0)).sum) / (courses.length : ℚ)

/-- `rawScore` of the skill calculation (src/routes/skills.js lines
158-159). -/
def skillRawScore (coursesCompleted : Nat) (testAverage : ℚ) : ℚ :=
  ((coursesCompleted : ℚ) * (testAverage / 100) * supervisorRating) / 3

/-- `level = Math.min(5, rawScore * 5)` (src/routes/skills.js line 160). -/
def skillLevel (coursesCompleted : Nat) (testAverage : ℚ) : ℚ :=
  min 5 (skillRawScore coursesCompleted testAverage * 5)

/-- The level value upserted into `user_skills`: `level.toFixed(2)`
(src/routes/skills.js line 177). -/
def storedSkillLevel (coursesCompleted : Nat) (testAverage : ℚ) : ℚ :=
  toFixed2 (skillLevel coursesCompleted testAverage)

end Archetype

namespace Archetype

/-- Evaluation rule for `jsRound`. -/
theorem jsRound_eq (x : ℚ) (n : ℤ) (h1 : (n : ℚ) ≤ x + 1 / 2) (h2 : x + 1 / 2 < n + 1) :
    jsRound x = n := by
  unfold jsRound
  rw [Int.floor_eq_iff]
  · exact ⟨h1, by exact_mod_cast h2⟩

/-- Evaluation rule for `toFixed2`. -/
theorem toFixed2_eq (x : ℚ) (n : ℤ) (h1 : (n : ℚ) ≤ x * 100 + 1 / 2)
    (h2 : x * 100 + 1 / 2 < n + 1) : toFixed2 x = (n : ℚ) / 100 := by
  unfold toFixed2
  rw [jsRound_eq (x * 100) n h1 h2]

/-- `toFixed2` is monotone. -/
theorem toFixed2_mono {x y : ℚ} (h : x ≤ y) : toFixed2 x ≤ toFixed2 y := by
  unfold toFixed2 jsRound
  have hf : (⌊x * 100 + 1 / 2⌋ : ℤ) ≤ ⌊y * 100 + 1 / 2⌋ := Int.floor_mono (by linarith)
  have hq : ((⌊x * 100 + 1 / 2⌋ : ℤ) : ℚ) ≤ ((⌊y * 100 + 1 / 2⌋ : ℤ) : ℚ) := by
    exact_mod_cast hf
  linarith

theorem toFixed2_100 : toFixed2 100 = 100 := by
  rw [toFixed2_eq 100 10000 (by norm_num) (by norm_num)]
  norm_num

theorem toFixed2_5 : toFixed2 5 = 5 := by
  rw [toFixed2_eq 5 500 (by norm_num) (by norm_num)]
  norm_num

theorem toFixed2_0 : toFixed2 0 = 0 := by
  rw [toFixed2_eq 0 0 (by norm_num) (by norm_num)]
  norm_num

/-- The start handlers admit an attempt exactly below the `|| 3` ceiling. -/
theorem startAttempt_ok_iff (test : Test) (userId existingCount newId : Nat) :
    (∃ a, startAttempt test userId existingCount newId = Except.ok a) ↔
      existingCount < effectiveMaxAttempts test := by
  unfold startAttempt
  by_cases h : effectiveMaxAttempts test ≤ existingCount
  · rw [if_pos h]
    constructor
    · rintro ⟨a, ha⟩
      exact Except.noConfusion ha
    · intro hlt
      omega
  · rw [if_neg h]
    constructor
    · intro _
      omega
    · intro _
      exact ⟨_, rfl⟩

/-- Field values of a freshly admitted attempt. -/
theorem startAttempt_ok_fields (test : Test) (userId existingCount newId : Nat)
    (a : TestAttempt) (h : startAttempt test userId existingCount newId = Except.ok a) :
    a.status = AttemptStatus.in_progress ∧ a.attempt_number = existingCount + 1 ∧
      a.test_id = test.id ∧ a.user_id = userId := by
  unfold startAttempt at h
  by_cases hle : effectiveMaxAttempts test ≤ existingCount
  · rw [if_pos hle] at h
    exact Except.noConfusion h
  · rw [if_neg hle] at h
    simp only [Except.ok.injEq] at h
    subst h
    exact ⟨rfl, rfl, rfl, rfl⟩

end Archetype
namespace Archetype

/-- Claim C3 (amended): a start-attempt call for a found test succeeds iff
the user's existing attempt count is strictly below the effective ceiling
`max_attempts || 3` (3 when max_attempts is NULL, and also when it is an
explicit 0); on success the created attempt has status in_progress and
attempt_number = count + 1 for the right test and user. -/
theorem start_attempt_admission (test : Test) (userId existingCount newId : Nat) :
    ((∃ a, startAttempt test userId existingCount newId = Except.ok a) ↔
      existingCount < effectiveMaxAttempts test)
    ∧ ∀ a, startAttempt test userId existingCount newId = Except.ok a →
        a.status = AttemptStatus.in_progress ∧ a.attempt_number = existingCount + 1 ∧
          a.test_id = test.id ∧ a.user_id = userId :=
  ⟨startAttempt_ok_iff test userId existingCount newId,
   fun a h => startAttempt_ok_fields test userId existingCount newId a h⟩

/-- A test row whose max_attempts column holds an explicit 0. -/
def testMaxZero : Test :=
  { id := 6, test_type := QType.written, passing_score := 70, max_attempts := some 0 }

/-- Claim C3, counterexample: for a test with max_attempts = 0 present, the
claim's ceiling `max_attempts ?? 3` is 0, so a user with 0 prior attempts
must be rejected (0 < 0 fails) — but the code admits the attempt, because
the JS fallback `max_attempts || 3` also replaces 0 by 3. -/
theorem start_attempt_zero_max_admitted :
    testMaxZero.max_attempts = some 0 ∧ ¬ ((0 : Nat) < 0) ∧
      ∃ a, startAttempt testMaxZero 9 0 1 = Except.ok a := by
  refine ⟨rfl, by omega, ?_⟩
  exact ⟨_, rfl⟩

/-- A test row with max_attempts = 2. -/
def testMaxTwo : Test :=
  { id := 5, test_type := QType.written, passing_score := 70, max_attempts := some 2 }

/-- Witness for `start_attempt_admission` at a concrete input. -/
theorem start_attempt_admission_witness :
    startAttempt testMaxTwo 8 0 77 =
      Except.ok
        { id := 77, test_id := 5, user_id := 8, status := AttemptStatus.in_progress,
          attempt_number := 1, score := none, graded_by := none, graded_at_set := false } ∧
    ({ id := 77, test_id := 5, user_id := 8, status := AttemptStatus.in_progress,
       attempt_number := 1, score := none, graded_by := none,
       graded_at_set := false } : TestAttempt).status = AttemptStatus.in_progress ∧
      ({ id := 77, test_id := 5, user_id := 8, status := AttemptStatus.in_progress,
         attempt_number := 1, score := none, graded_by := none,
         graded_at_set := false } : TestAttempt).attempt_number = 0 + 1 ∧
      ({ id := 77, test_id := 5, user_id := 8, status := AttemptStatus.in_progress,
         attempt_number := 1, score := none, graded_by := none,
         graded_at_set := false } : TestAttempt).test_id = testMaxTwo.id ∧
      ({ id := 77, test_id := 5, user_id := 8, status := AttemptStatus.in_progress,
         attempt_number := 1, score := none, graded_by := none,
         graded_at_set := false } : TestAttempt).user_id = 8 :=
  ⟨rfl, (start_attempt_admission testMaxTwo 8 0 77).2 _ rfl⟩

/-- Claim C10: when max_attempts is NULL or an explicit 0, the admission
ceiling is 3: a start-attempt call succeeds iff the user has fewer than 3
prior attempts. -/
theorem start_attempt_null_or_zero_ceiling (test : Test) (userId existingCount newId : Nat)
    (h : test.max_attempts = none ∨ test.max_attempts = some 0) :
    (∃ a, startAttempt test userId existingCount newId = Except.ok a) ↔
      existingCount < 3 := by
  have hm : effectiveMaxAttempts test = 3 := by
    rcases h with h | h <;> simp [effectiveMaxAttempts, h]
  rw [← hm]
  exact startAttempt_ok_iff test userId existingCount newId

/-- A test row whose max_attempts column is NULL. -/
def testMaxNull : Test :=
  { id := 7, test_type := QType.coding, passing_score := 70, max_attempts := none }

/-- Witness for `start_attempt_null_or_zero_ceiling` at a concrete input. -/
theorem start_attempt_null_or_zero_ceiling_witness :
    (testMaxNull.max_attempts = none ∨ testMaxNull.max_attempts = some 0) ∧
      ((∃ a, startAttempt testMaxNull 3 2 9 = Except.ok a) ↔ 2 < 3) :=
  ⟨Or.inl rfl, start_attempt_null_or_zero_ceiling testMaxNull 3 2 9 (Or.inl rfl)⟩

end Archetype
namespace Archetype

/-- `autoGradePoints` implements exactly the per-answer rule: full points or
0 for an MCQ answer with a selection (depending on the selected option's
is_correct, a missing option row counting as incorrect), NULL otherwise. -/
theorem autoGradePoints_eq_rule (db : DB) (q : TestQuestion) (a : SubmittedAnswer) :
    autoGradePoints db q a =
      match q.question_type, a.selected_option_id with
      | QType.multiple_choice, some oid =>
        some (if ((db.options oid).map QuestionOption.is_correct).getD false
          then (q.points : ℚ) else 0)
      | _, _ => none := by
  unfold autoGradePoints
  cases ha : a.selected_option_id with
  | none => cases q.question_type <;> rfl
  | some oid =>
    cases hq : q.question_type with
    | multiple_choice =>
      cases ho : db.options oid with
      | none => simp [ho]
      | some opt => cases hc : opt.is_correct <;> simp [ho, hc]
    | written => simp
    | coding => simp

/-- Whatever `autoGradePoints` awards is at most the question's points. -/
theorem autoGradePoints_getD_le (db : DB) (q : TestQuestion) (a : SubmittedAnswer) :
    (autoGradePoints db q a).getD 0 ≤ (q.points : ℚ) := by
  rw [autoGradePoints_eq_rule db q a]
  cases q.question_type with
  | multiple_choice =>
    cases a.selected_option_id with
    | none => simp
    | some oid =>
      dsimp only [Option.getD]
      split_ifs
      · exact le_refl _
      · exact Nat.cast_nonneg q.points
  | written => cases a.selected_option_id <;> simp
  | coding => cases a.selected_option_id <;> simp

/-- Origin of every row inserted by the candidate submission loop. -/
theorem candidateProcess_rows_mem (db : DB) (aid : Nat) (answers : List SubmittedAnswer) :
    ∀ row ∈ (candidateProcess db aid answers).rows,
      ∃ a, a ∈ answers ∧ ∃ q, db.questions a.question_id = some q ∧
        row = mkAnswerRow aid a (autoGradePoints db q a) := by
  induction answers with
  | nil =>
    intro row hrow
    simp [candidateProcess] at hrow
  | cons a rest ih =>
    intro row hrow
    cases hq : db.questions a.question_id with
    | none =>
      simp only [candidateProcess, hq] at hrow
      obtain ⟨a', ha', hrest⟩ := ih row hrow
      exact ⟨a', List.mem_cons_of_mem a ha', hrest⟩
    | some q =>
      simp only [candidateProcess, hq] at hrow
      rcases List.mem_cons.mp hrow with h | h
      · exact ⟨a, List.mem_cons_self a rest, q, hq, h⟩
      · obtain ⟨a', ha', hrest⟩ := ih row h
        exact ⟨a', List.mem_cons_of_mem a ha', hrest⟩

/-- The answer rows of a successful candidate submission are the loop's rows. -/
theorem candidateSubmit_ok_answers (db : DB) (test : Test) (attempt : TestAttempt)
    (answers : List SubmittedAnswer) (out : CandidateOutcome)
    (h : candidateSubmit db test attempt answers = Except.ok out) :
    out.answers = (candidateProcess db attempt.id answers).rows := by
  unfold candidateSubmit at h
  by_cases hs : attempt.status ≠ AttemptStatus.in_progress
  · rw [if_pos hs] at h
    exact Except.noConfusion h
  · rw [if_neg hs] at h
    dsimp only at h
    by_cases hc : (candidateProcess db attempt.id answers).autoGradable = true ∧
        0 < (candidateProcess db attempt.id answers).totalPoints
    · rw [if_pos hc] at h
      simp only [Except.ok.injEq] at h
      subst h
      rfl
    · rw [if_neg hc] at h
      simp only [Except.ok.injEq] at h
      subst h
      rfl

/-- Origin of every row inserted by the generic submission loop. -/
theorem genericProcess_rows_mem (db : DB) (aid : Nat) (answers : List SubmittedAnswer) :
    ∀ rows total earned, genericProcess db aid answers = Except.ok (rows, total, earned) →
      ∀ row ∈ rows, ∃ a, a ∈ answers ∧ ∃ q, db.questions a.question_id = some q ∧
        row = mkAnswerRow aid a (autoGradePoints db q a) := by
  induction answers with
  | nil =>
    intro rows total earned h row hrow
    simp only [genericProcess, Except.ok.injEq, Prod.mk.injEq] at h
    obtain ⟨h1, _, _⟩ := h
    subst h1
    simp at hrow
  | cons a rest ih =>
    intro rows total earned h row hrow
    cases hq : db.questions a.question_id with
    | none =>
      simp only [genericProcess, hq] at h
      exact Except.noConfusion h
    | some q =>
      cases hr : genericProcess db aid rest with
      | error e =>
        simp only [genericProcess, hq, hr] at h
        exact Except.noConfusion h
      | ok triple =>
        obtain ⟨rs, t, e⟩ := triple
        simp only [genericProcess, hq, hr, Except.ok.injEq, Prod.mk.injEq] at h
        obtain ⟨h1, _, _⟩ := h
        subst h1
        rcases List.mem_cons.mp hrow with hmem | hmem
        · exact ⟨a, List.mem_cons_self a rest, q, hq, hmem⟩
        · obtain ⟨a', ha', hrest⟩ := ih rs t e hr row hmem
          exact ⟨a', List.mem_cons_of_mem a ha', hrest⟩

/-- The answer rows of a successful generic submission come from the loop. -/
theorem genericSubmit_ok_answers (db : DB) (test : Test) (attempt : TestAttempt)
    (answers : List SubmittedAnswer) (out : SubmitOutcome)
    (h : genericSubmit db test attempt answers = Except.ok out) :
    ∃ total earned, genericProcess db attempt.id answers = Except.ok (out.answers, total, earned) := by
  unfold genericSubmit at h
  by_cases hs : attempt.status ≠ AttemptStatus.in_progress
  · rw [if_pos hs] at h
    exact Except.noConfusion h
  · rw [if_neg hs] at h
    cases hr : genericProcess db attempt.id answers with
    | error e =>
      rw [hr] at h
      exact Except.noConfusion h
    | ok triple =>
      obtain ⟨rows, total, earned⟩ := triple
      rw [hr] at h
      simp only [Except.ok.injEq] at h
      subst h
      exact ⟨total, earned, rfl⟩

end Archetype
namespace Archetype

/-- Claim C2: in both submission paths, every persisted answer row
references an existing question and carries points_awarded per the single
automatic rule: for a multiple_choice question with a selection, full
question points if the selected option is correct and 0 otherwise; NULL in
every other case. -/
theorem submit_answer_points_rule (db : DB) (test : Test) (attempt : TestAttempt)
    (answers : List SubmittedAnswer) :
    (∀ out, candidateSubmit db test attempt answers = Except.ok out →
      ∀ row ∈ out.answers, ∃ q, db.questions row.question_id = some q ∧
        row.points_awarded =
          match q.question_type, row.selected_option_id with
          | QType.multiple_choice, some oid =>
            some (if ((db.options oid).map QuestionOption.is_correct).getD false
              then (q.points : ℚ) else 0)
          | _, _ => none)
    ∧ (∀ out, genericSubmit db test attempt answers = Except.ok out →
      ∀ row ∈ out.answers, ∃ q, db.questions row.question_id = some q ∧
        row.points_awarded =
          match q.question_type, row.selected_option_id with
          | QType.multiple_choice, some oid =>
            some (if ((db.options oid).map QuestionOption.is_correct).getD false
              then (q.points : ℚ) else 0)
          | _, _ => none) := by
  constructor
  · intro out hout row hrow
    rw [candidateSubmit_ok_answers db test attempt answers out hout] at hrow
    obtain ⟨a, _, q, hq, hrw⟩ := candidateProcess_rows_mem db attempt.id answers row hrow
    subst hrw
    exact ⟨q, hq, autoGradePoints_eq_rule db q a⟩
  · intro out hout row hrow
    obtain ⟨total, earned, hproc⟩ := genericSubmit_ok_answers db test attempt answers out hout
    obtain ⟨a, _, q, hq, hrw⟩ :=
      genericProcess_rows_mem db attempt.id answers out.answers total earned hproc row hrow
    subst hrw
    exact ⟨q, hq, autoGradePoints_eq_rule db q a⟩

/-- Store for the C2 witness: an MCQ question worth 2 points with a correct
option 11, and a written question worth 3 points. -/
def dbC2 : DB :=
  { questions := fun i =>
      if i = 1 then some { id := 1, test_id := 3, question_type := QType.multiple_choice,
                           points := 2, order_index := 0 }
      else if i = 2 then some { id := 2, test_id := 3, question_type := QType.written,
                                points := 3, order_index := 1 }
      else none
    options := fun i =>
      if i = 11 then some { id := 11, question_id := 1, option_text := "a",
                            is_correct := true, order_index := 0 }
      else none }

def testC2 : Test :=
  { id := 3, test_type := QType.multiple_choice, passing_score := 70, max_attempts := some 3 }

def attemptC2 : TestAttempt :=
  { id := 300, test_id := 3, user_id := 60, status := AttemptStatus.in_progress,
    attempt_number := 1, score := none, graded_by := none, graded_at_set := false }

def answersC2 : List SubmittedAnswer :=
  [ { question_id := 1, answer_text := none, selected_option_id := some 11 },
    { question_id := 2, answer_text := some "essay", selected_option_id := none } ]

/-- The outcome of the candidate submission on the C2 store: the MCQ answer
is awarded the full 2 points, the written answer stays NULL, and the attempt
is submitted awaiting manual review. -/
def outC2 : CandidateOutcome :=
  { answers :=
      [ { attempt_id := 300, question_id := 1, answer_text := none,
          selected_option_id := some 11, points_awarded := some 2, feedback := none },
        { attempt_id := 300, question_id := 2, answer_text := some "essay",
          selected_option_id := none, points_awarded := none, feedback := none } ]
    attempt := { id := 300, test_id := 3, user_id := 60, status := AttemptStatus.submitted,
                 attempt_number := 1, score := none, graded_by := none, graded_at_set := false }
    feedbackKind := FeedbackKind.pendingReview
    passed := false }

theorem candidateSubmit_outC2 :
    candidateSubmit dbC2 testC2 attemptC2 answersC2 = Except.ok outC2 := by
  norm_num [candidateSubmit, candidateProcess, autoGradePoints, mkAnswerRow,
    dbC2, testC2, attemptC2, answersC2, outC2]

/-- Witness for `submit_answer_points_rule` at a concrete input. -/
theorem submit_answer_points_rule_witness :
    candidateSubmit dbC2 testC2 attemptC2 answersC2 = Except.ok outC2 ∧
    ∃ q, dbC2.questions
        ({ attempt_id := 300, question_id := 1, answer_text := none,
           selected_option_id := some 11, points_awarded := some 2,
           feedback := none } : TestAnswerRow).question_id = some q ∧
      ({ attempt_id := 300, question_id := 1, answer_text := none,
         selected_option_id := some 11, points_awarded := some 2,
         feedback := none } : TestAnswerRow).points_awarded =
        match q.question_type,
            ({ attempt_id := 300, question_id := 1, answer_text := none,
               selected_option_id := some 11, points_awarded := some 2,
               feedback := none } : TestAnswerRow).selected_option_id with
        | QType.multiple_choice, some oid =>
          some (if ((dbC2.options oid).map QuestionOption.is_correct).getD false
            then (q.points : ℚ) else 0)
        | _, _ => none :=
  ⟨candidateSubmit_outC2,
   (submit_answer_points_rule dbC2 testC2 attemptC2 answersC2).1 outC2 candidateSubmit_outC2
     _ (List.mem_cons_self _ _)⟩

/-- Claim C4: submitting an attempt that is not in_progress fails with the
invalid-state rejection on both submission paths; the transaction is rolled
back, so no answer rows are persisted and the attempt row is unchanged. -/
theorem submit_requires_in_progress (db : DB) (test : Test) (attempt : TestAttempt)
    (answers : List SubmittedAnswer) (h : attempt.status ≠ AttemptStatus.in_progress) :
    genericSubmit db test attempt answers = Except.error OpError.invalidState ∧
      candidateSubmit db test attempt answers = Except.error OpError.invalidState := by
  constructor
  · unfold genericSubmit
    rw [if_pos h]
  · unfold candidateSubmit
    rw [if_pos h]

def attemptC4 : TestAttempt :=
  { id := 400, test_id := 9, user_id := 1, status := AttemptStatus.submitted,
    attempt_number := 1, score := none, graded_by := none, graded_at_set := false }

def testC4 : Test :=
  { id := 9, test_type := QType.multiple_choice, passing_score := 70, max_attempts := some 3 }

/-- The empty store. -/
def dbEmpty : DB := { questions := fun _ => none, options := fun _ => none }

/-- Witness for `submit_requires_in_progress` at a concrete input. -/
theorem submit_requires_in_progress_witness :
    attemptC4.status ≠ AttemptStatus.in_progress ∧
      (genericSubmit dbEmpty testC4 attemptC4 [] = Except.error OpError.invalidState ∧
        candidateSubmit dbEmpty testC4 attemptC4 [] = Except.error OpError.invalidState) :=
  ⟨by simp [attemptC4], submit_requires_in_progress dbEmpty testC4 attemptC4 [] (by simp [attemptC4])⟩

end Archetype
namespace Archetype

/-- When every graded entry references an existing question, the grading
loop succeeds and returns the updates together with the sum of the
referenced questions' points and the sum of the grader-supplied awards
(`points_awarded || 0`). -/
theorem gradeProcess_eq (db : DB) (entries : List GradeEntry)
    (h : ∀ e ∈ entries, (db.questions e.question_id).isSome) :
    gradeProcess db entries =
      Except.ok
        (entries.map (fun e =>
          { question_id := e.question_id, points_awarded := e.points_awarded,
            feedback := e.feedback }),
         (entries.map (fun e =>
           ((db.questions e.question_id).map (fun q => (q.points : ℚ))).getD 0)).sum,
         (entries.map (fun e => e.points_awarded.getD 0)).sum) := by
  induction entries with
  | nil => simp [gradeProcess]
  | cons e rest ih =>
    have he : (db.questions e.question_id).isSome := h e (List.mem_cons_self e rest)
    obtain ⟨q, hq⟩ := Option.isSome_iff_exists.mp he
    have hr := ih (fun x hx => h x (List.mem_cons_of_mem e hx))
    simp [gradeProcess, hq, hr]

/-- Claim C5: manually grading a submitted attempt whose entries reference
existing questions succeeds and sets status graded, records the grader, and
stores score = toFixed2(100 × E / T) where E is the sum of the
grader-supplied points and T the sum of the referenced questions' points;
grading an attempt that is in_progress or already graded fails with the
invalid-state rejection (transaction rolled back, nothing changed). -/
theorem grade_attempt_spec (db : DB) (attempt : TestAttempt) (graderId : Nat)
    (entries : List GradeEntry) (fb : Option String) :
    (attempt.status = AttemptStatus.submitted →
      (∀ e ∈ entries, (db.questions e.question_id).isSome) →
      ∃ out, gradeAttempt db attempt graderId entries fb = Except.ok out ∧
        out.attempt.status = AttemptStatus.graded ∧
        out.attempt.graded_by = some graderId ∧
        out.attempt.score = some (toFixed2 (100 *
          (entries.map (fun e => e.points_awarded.getD 0)).sum /
          (entries.map (fun e =>
            ((db.questions e.question_id).map (fun q => (q.points : ℚ))).getD 0)).sum)))
    ∧ (attempt.status ≠ AttemptStatus.submitted →
        gradeAttempt db attempt graderId entries fb = Except.error OpError.invalidState) := by
  constructor
  · intro hs hfound
    have hs' : ¬ attempt.status ≠ AttemptStatus.submitted := fun hne => hne hs
    unfold gradeAttempt
    rw [if_neg hs', gradeProcess_eq db entries hfound]
    refine ⟨_, rfl, rfl, rfl, ?_⟩
    have harg :
        (entries.map (fun e => e.points_awarded.getD 0)).sum /
            (entries.map (fun e =>
              ((db.questions e.question_id).map (fun q => (q.points : ℚ))).getD 0)).sum * 100 =
          100 * (entries.map (fun e => e.points_awarded.getD 0)).sum /
            (entries.map (fun e =>
              ((db.questions e.question_id).map (fun q => (q.points : ℚ))).getD 0)).sum := by
      ring
    rw [harg]
  · intro hs
    unfold gradeAttempt
    rw [if_pos hs]

/-- Store for the C5 witness: a single written question worth 2 points. -/
def dbC5 : DB :=
  { questions := fun i =>
      if i = 1 then some { id := 1, test_id := 4, question_type := QType.written,
                           points := 2, order_index := 0 }
      else none
    options := fun _ => none }

def attemptC5 : TestAttempt :=
  { id := 500, test_id := 4, user_id := 2, status := AttemptStatus.submitted,
    attempt_number := 1, score := none, graded_by := none, graded_at_set := false }

def entriesC5 : List GradeEntry :=
  [ { question_id := 1, points_awarded := some 1, feedback := none } ]

/-- Witness for `grade_attempt_spec` at a concrete input. -/
theorem grade_attempt_spec_witness :
    attemptC5.status = AttemptStatus.submitted ∧
      (∀ e ∈ entriesC5, (dbC5.questions e.question_id).isSome) ∧
      ∃ out, gradeAttempt dbC5 attemptC5 77 entriesC5 none = Except.ok out ∧
        out.attempt.status = AttemptStatus.graded ∧
        out.attempt.graded_by = some 77 ∧
        out.attempt.score = some (toFixed2 (100 *
          (entriesC5.map (fun e => e.points_awarded.getD 0)).sum /
          (entriesC5.map (fun e =>
            ((dbC5.questions e.question_id).map (fun q => (q.points : ℚ))).getD 0)).sum)) :=
  ⟨rfl, by simp [entriesC5, dbC5],
   (grade_attempt_spec dbC5 attemptC5 77 entriesC5 none).1 rfl (by simp [entriesC5, dbC5])⟩

end Archetype
namespace Archetype

/-- Store for the C6 counterexample: one written question worth 1 point. -/
def dbC6 : DB :=
  { questions := fun i =>
      if i = 1 then some { id := 1, test_id := 5, question_type := QType.written,
                           points := 1, order_index := 0 }
      else none
    options := fun _ => none }

def attemptC6 : TestAttempt :=
  { id := 600, test_id := 5, user_id := 3, status := AttemptStatus.submitted,
    attempt_number := 1, score := none, graded_by := none, graded_at_set := false }

/-- A grader awards 10 points on the 1-point question. -/
def entriesC6 : List GradeEntry :=
  [ { question_id := 1, points_awarded := some 10, feedback := none } ]

/-- The outcome of the over-awarding manual grading call. -/
def outC6 : GradeOutcome :=
  { updates := [ { question_id := 1, points_awarded := some 10, feedback := none } ]
    attempt := { id := 600, test_id := 5, user_id := 3, status := AttemptStatus.graded,
                 attempt_number := 1, score := some (toFixed2 1000), graded_by := some 8,
                 graded_at_set := true }
    overallFeedback := none }

/-- Claim C6, counterexample: the manual grading handler does not clamp
grader-supplied awards, so an attempt reaches status graded with an awarded
sum of 10 over questions totalling 1 point, violating the invariant. -/
theorem graded_attempt_award_exceeds_total :
    gradeAttempt dbC6 attemptC6 8 entriesC6 none = Except.ok outC6 ∧
      outC6.attempt.status = AttemptStatus.graded ∧
      (outC6.updates.map (fun u => u.points_awarded.getD 0)).sum = 10 ∧
      (outC6.updates.map (fun u =>
        ((dbC6.questions u.question_id).map (fun q => (q.points : ℚ))).getD 0)).sum = 1 ∧
      ¬ ((10 : ℚ) ≤ 1) := by
  refine ⟨?_, rfl, ?_, ?_, by norm_num⟩
  · norm_num [gradeAttempt, gradeProcess, dbC6, attemptC6, entriesC6, outC6]
  · norm_num [outC6]
  · norm_num [outC6, dbC6]

/-- Awarded-points sum of the candidate loop's rows is bounded by the sum of
the referenced questions' points. -/
theorem candidateProcess_rows_award_le (db : DB) (aid : Nat) (answers : List SubmittedAnswer) :
    ((candidateProcess db aid answers).rows.map (fun r => r.points_awarded.getD 0)).sum ≤
      ((candidateProcess db aid answers).rows.map (fun r =>
        ((db.questions r.question_id).map (fun q => (q.points : ℚ))).getD 0)).sum := by
  induction answers with
  | nil => simp [candidateProcess]
  | cons a rest ih =>
    cases hq : db.questions a.question_id with
    | none => simpa [candidateProcess, hq] using ih
    | some q =>
      simp only [candidateProcess, hq, mkAnswerRow, List.map_cons, List.sum_cons,
        Option.map_some', Option.getD_some]
      exact add_le_add (autoGradePoints_getD_le db q a) ih

/-- Claim C6 (amended): for attempts graded by the auto-grading submission
path the invariant holds — the sum of persisted points_awarded is at most
the sum of the referenced questions' points; the manual grading handler is
excluded because it stores grader-supplied awards without clamping. -/
theorem auto_graded_awarded_sum_le_total (db : DB) (test : Test) (attempt : TestAttempt)
    (answers : List SubmittedAnswer) (out : CandidateOutcome)
    (h : candidateSubmit db test attempt answers = Except.ok out) :
    (out.answers.map (fun r => r.points_awarded.getD 0)).sum ≤
      (out.answers.map (fun r =>
        ((db.questions r.question_id).map (fun q => (q.points : ℚ))).getD 0)).sum := by
  rw [candidateSubmit_ok_answers db test attempt answers out h]
  exact candidateProcess_rows_award_le db attempt.id answers

/-- Witness for `auto_graded_awarded_sum_le_total` at a concrete input. -/
theorem auto_graded_awarded_sum_le_total_witness :
    candidateSubmit dbC2 testC2 attemptC2 answersC2 = Except.ok outC2 ∧
      (outC2.answers.map (fun r => r.points_awarded.getD 0)).sum ≤
        (outC2.answers.map (fun r =>
          ((dbC2.questions r.question_id).map (fun q => (q.points : ℚ))).getD 0)).sum :=
  ⟨candidateSubmit_outC2,
   auto_graded_awarded_sum_le_total dbC2 testC2 attemptC2 answersC2 outC2 candidateSubmit_outC2⟩

end Archetype
namespace Archetype

theorem jsRound_100 : jsRound 100 = 100 := jsRound_eq _ 100 (by norm_num) (by norm_num)

theorem jsRound_third : jsRound (100 / 3) = 33 := jsRound_eq _ 33 (by norm_num) (by norm_num)

theorem toFixed2_third : toFixed2 (100 / 3) = 3333 / 100 := by
  rw [toFixed2_eq (100 / 3) 3333 (by norm_num) (by norm_num)]
  norm_num

/-- Store for the C1 scenario: an all-multiple_choice test with one MCQ
question worth 2 points whose correct option is 11. -/
def dbC1 : DB :=
  { questions := fun i =>
      if i = 1 then some { id := 1, test_id := 2, question_type := QType.multiple_choice,
                           points := 2, order_index := 0 }
      else none
    options := fun i =>
      if i = 11 then some { id := 11, question_id := 1, option_text := "a",
                            is_correct := true, order_index := 0 }
      else if i = 12 then some { id := 12, question_id := 1, option_text := "b",
                                 is_correct := false, order_index := 1 }
      else none }

def testC1 : Test :=
  { id := 2, test_type := QType.multiple_choice, passing_score := 70, max_attempts := some 3 }

def attemptC1 : TestAttempt :=
  { id := 200, test_id := 2, user_id := 50, status := AttemptStatus.in_progress,
    attempt_number := 1, score := none, graded_by := none, graded_at_set := false }

/-- Every question answered with its correct option. -/
def answersC1 : List SubmittedAnswer :=
  [ { question_id := 1, answer_text := none, selected_option_id := some 11 } ]

/-- Claim C1 (code-bug exhibit): submitting the all-correct answer set for
an all-multiple_choice test with total points 2 > 0, the candidate
submission path stores score 100 with status graded as claimed; the generic
submission path (src/routes/tests.js) computes the same score 100.00 and
sets graded_at, but its UPDATE hardcodes status = 'submitted', so the
attempt never reaches status graded there, contradicting the claimed
transition (while the handler's own response says "Test submitted and
graded"). -/
theorem all_correct_submission_status_and_score :
    (candidateSubmit dbC1 testC1 attemptC1 answersC1).map
        (fun o => (o.attempt.status, o.attempt.score, o.passed)) =
      Except.ok (AttemptStatus.graded, some 100, true)
    ∧ (genericSubmit dbC1 testC1 attemptC1 answersC1).map
        (fun o => (o.attempt.status, o.attempt.score, o.attempt.graded_at_set)) =
      Except.ok (AttemptStatus.submitted, some 100, true) := by
  constructor
  · norm_num [candidateSubmit, candidateProcess, autoGradePoints, mkAnswerRow, Except.map,
      dbC1, testC1, attemptC1, answersC1, jsRound_100]
  · norm_num [genericSubmit, genericProcess, autoGradePoints, mkAnswerRow, Except.map,
      dbC1, testC1, attemptC1, answersC1, toFixed2_100]

/-- Store for the C7 scenario: three 1-point MCQ questions, correct options
11, 21, 31, distractors 12, 22, 32. -/
def dbC7 : DB :=
  { questions := fun i =>
      if i = 1 then some { id := 1, test_id := 8, question_type := QType.multiple_choice,
                           points := 1, order_index := 0 }
      else if i = 2 then some { id := 2, test_id := 8, question_type := QType.multiple_choice,
                                points := 1, order_index := 1 }
      else if i = 3 then some { id := 3, test_id := 8, question_type := QType.multiple_choice,
                                points := 1, order_index := 2 }
      else none
    options := fun i =>
      if i = 11 then some { id := 11, question_id := 1, option_text := "a",
                            is_correct := true, order_index := 0 }
      else if i = 22 then some { id := 22, question_id := 2, option_text := "b",
                                 is_correct := false, order_index := 1 }
      else if i = 32 then some { id := 32, question_id := 3, option_text := "b",
                                 is_correct := false, order_index := 1 }
      else none }

def testC7 : Test :=
  { id := 8, test_type := QType.multiple_choice, passing_score := 70, max_attempts := some 3 }

def attemptC7 : TestAttempt :=
  { id := 700, test_id := 8, user_id := 51, status := AttemptStatus.in_progress,
    attempt_number := 1, score := none, graded_by := none, graded_at_set := false }

/-- One correct answer out of three. -/
def answersC7 : List SubmittedAnswer :=
  [ { question_id := 1, answer_text := none, selected_option_id := some 11 },
    { question_id := 2, answer_text := none, selected_option_id := some 22 },
    { question_id := 3, answer_text := none, selected_option_id := some 32 } ]

/-- Claim C7: with 1 point earned out of 3, the candidate path stores
Math.round(100/3) = 33 and the generic path stores
(100/3).toFixed(2) = 33.33 — the two submission implementations disagree. -/
theorem submit_paths_rounding_disagree :
    (candidateSubmit dbC7 testC7 attemptC7 answersC7).map (fun o => o.attempt.score) =
      Except.ok (some 33)
    ∧ (genericSubmit dbC7 testC7 attemptC7 answersC7).map (fun o => o.attempt.score) =
      Except.ok (some (3333 / 100))
    ∧ (33 : ℚ) ≠ 3333 / 100 := by
  refine ⟨?_, ?_, by norm_num⟩
  · norm_num [candidateSubmit, candidateProcess, autoGradePoints, mkAnswerRow, Except.map,
      dbC7, testC7, attemptC7, answersC7, jsRound_third]
  · norm_num [genericSubmit, genericProcess, autoGradePoints, mkAnswerRow, Except.map,
      dbC7, testC7, attemptC7, answersC7, toFixed2_third]

end Archetype
namespace Archetype

/-- Course → average graded test score map for the C8 scenario: courses 10
and 20 completed with test averages 80 and 60. -/
def avgMapC8 : Nat → Option ℚ :=
  fun cid => if cid = 10 then some 80 else if cid = 20 then some 60 else none

/-- Claim C8: for the two-course scenario (test averages 80 and 60, mean
70, supervisor_rating 3.5) the stored level is clamped to 5.00; and for any
nonnegative test average the stored level lies in [0, 5]. -/
theorem skill_level_formula_and_range :
    (skillTestAverage avgMapC8 [10, 20] = 70 ∧
      storedSkillLevel 2 (skillTestAverage avgMapC8 [10, 20]) = 5)
    ∧ ∀ (cc : Nat) (ta : ℚ), 0 ≤ ta →
        0 ≤ storedSkillLevel cc ta ∧ storedSkillLevel cc ta ≤ 5 := by
  have havg : skillTestAverage avgMapC8 [10, 20] = 70 := by
    norm_num [skillTestAverage, avgMapC8]
  constructor
  · refine ⟨havg, ?_⟩
    rw [havg]
    unfold storedSkillLevel skillLevel
    have hmin : min (5 : ℚ) (skillRawScore 2 70 * 5) = 5 :=
      min_eq_left (by norm_num [skillRawScore, supervisorRating])
    rw [hmin, toFixed2_5]
  · intro cc ta hta
    have hraw : 0 ≤ skillRawScore cc ta := by
      unfold skillRawScore supervisorRating
      apply div_nonneg _ (by norm_num)
      apply mul_nonneg _ (by norm_num)
      exact mul_nonneg (Nat.cast_nonneg cc) (div_nonneg hta (by norm_num))
    have h0 : 0 ≤ skillLevel cc ta :=
      le_min (by norm_num) (mul_nonneg hraw (by norm_num))
    have h5 : skillLevel cc ta ≤ 5 := min_le_left _ _
    constructor
    · have hm := toFixed2_mono h0
      rw [toFixed2_0] at hm
      exact hm
    · have hm := toFixed2_mono h5
      rw [toFixed2_5] at hm
      exact hm

/-- Witness for `skill_level_formula_and_range` at a concrete input. -/
theorem skill_level_formula_and_range_witness :
    (0 : ℚ) ≤ 70 ∧ (0 ≤ storedSkillLevel 2 70 ∧ storedSkillLevel 2 70 ≤ 5) :=
  ⟨by norm_num, skill_level_formula_and_range.2 2 70 (by norm_num)⟩

/-- An option row marked correct. -/
def optionRowTrue : QuestionOption :=
  { id := 41, question_id := 9, option_text := "x", is_correct := true, order_index := 0 }

/-- The same option row marked incorrect. -/
def optionRowFalse : QuestionOption :=
  { id := 41, question_id := 9, option_text := "x", is_correct := false, order_index := 0 }

/-- Claim C9, counterexample: two option rows that differ only in
is_correct produce identical responses from the read projection, so the
response sent to the caller cannot include the is_correct flag — the
handlers select only id, option_text and order_index. -/
theorem read_option_response_ignores_is_correct :
    optionRowTrue.is_correct = true ∧ optionRowFalse.is_correct = false ∧
      optionRowTrue ≠ optionRowFalse ∧
      readTestOption optionRowTrue = readTestOption optionRowFalse := by
  refine ⟨rfl, rfl, ?_, rfl⟩
  intro h
  exact Bool.noConfusion (congrArg QuestionOption.is_correct h)

/-- Claim C9 (amended): the read-test-details and start-attempt handlers
strip is_correct — their option queries select only id, option_text and
order_index, so the returned record is independent of is_correct. -/
theorem read_option_strips_is_correct (o : QuestionOption) (b : Bool) :
    readTestOption { o with is_correct := b } = readTestOption o := rfl

end Archetype
